import Mathlib

/-!
Verification of the library membership-card workflow (`src/ex.py`).

The Python program is embedded shallowly: every class method becomes a pure
Lean function, exceptions become `Except String`, the in-memory repository
becomes explicit list state, and the orchestrator records a trace of the
collaborator invocations it performs.  Monetary amounts are modelled as `Rat`
(the program only ever uses the exact constants 10.0, 12.0, 5.0, 6.0, 20.0,
so no floating-point rounding is reachable).  Byte strings are modelled as
`List Nat` of byte values, with an explicit UTF-8 encoder/decoder.
-/

/-- Calendar dates as stored on a member record (`datetime.date`). -/
structure Date where
  year : Nat
  month : Nat
  day : Nat
deriving DecidableEq, Repr

/-- Zero-pad a numeral to two digits, as `datetime.date.isoformat` does. -/
def pad2 (n : Nat) : String :=
  if n < 10 then "0" ++ toString n else toString n

/-- Zero-pad a year to four digits, as `datetime.date.isoformat` does. -/
def pad4 (n : Nat) : String :=
  if n < 10 then "000" ++ toString n
  else if n < 100 then "00" ++ toString n
  else if n < 1000 then "0" ++ toString n
  else toString n

/-- `datetime.date.isoformat`: "YYYY-MM-DD". -/
def Date.isoformat (d : Date) : String :=
  pad4 d.year ++ "-" ++ pad2 d.month ++ "-" ++ pad2 d.day

/-- The member record `Usuario` (`src/ex.py` lines 9-19). -/
structure Usuario where
  id : String
  nombre : String
  correo : String
  tipo : String
  fecha_registro : Date
deriving DecidableEq, Repr

/-- Python whitespace as stripped by `str.strip()` (the ASCII whitespace
characters; the program's data never involves the further Unicode spaces). -/
def pyIsSpace (c : Char) : Bool :=
  c = ' ' || c = '\t' || c = '\n' || c = '\x0d' || c = '\x0b' || c = '\x0c'

/-- Python `str.strip()`: drop whitespace from both ends. -/
def strip (s : String) : String :=
  String.mk (((s.data.dropWhile pyIsSpace).reverse.dropWhile pyIsSpace).reverse)

/-- Python `c in s` for a single character `c`: membership of the character
in the string. -/
def pyContains (s : String) (c : Char) : Bool :=
  s.data.any (fun x => x = c)

/-- The five recognized categories (`tipos` in `UsuarioValidator.validar`). -/
def tipos : List String :=
  ["estudiante_pre", "estudiante_pos", "docente", "administrativo", "externo"]

/-- `UsuarioValidator.validar` (`src/ex.py` lines 27-35): raises `ValueError`
(modelled as `Except.error`) on bad name, then bad email, then unknown
category; otherwise returns normally.  Python's falsiness test
`not usuario.nombre` is the empty-string test. -/
def validar (usuario : Usuario) : Except String Unit :=
  if usuario.nombre = "" ∨ (strip usuario.nombre).length < 2 then
    Except.error "Nombre inválido"
  else if ¬ pyContains usuario.correo '@' ∨ (strip usuario.correo).length < 5 then
    Except.error "Correo inválido"
  else if usuario.tipo ∉ tipos then
    Except.error ("Tipo de usuario desconocido: " ++ usuario.tipo)
  else
    Except.ok ()

/-- The five `ICostoCarne` strategy classes (`src/ex.py` lines 43-61). -/
inductive ICostoCarne where
  | costoEstudiantePre
  | costoEstudiantePos
  | costoDocente
  | costoAdministrativo
  | costoExterno
deriving DecidableEq, Repr

/-- The `calcular` method of each strategy: each returns a fixed constant and
ignores the member record. -/
def calcular : ICostoCarne → Usuario → Rat
  | ICostoCarne.costoEstudiantePre, _ => 10
  | ICostoCarne.costoEstudiantePos, _ => 12
  | ICostoCarne.costoDocente, _ => 5
  | ICostoCarne.costoAdministrativo, _ => 6
  | ICostoCarne.costoExterno, _ => 20

/-- `CostoFactory.get_costo_strategy` (`src/ex.py` lines 63-76): fixed lookup
table from category string to strategy, `ValueError` outside the table. -/
def get_costo_strategy (tipo : String) : Except String ICostoCarne :=
  if tipo = "estudiante_pre" then Except.ok ICostoCarne.costoEstudiantePre
  else if tipo = "estudiante_pos" then Except.ok ICostoCarne.costoEstudiantePos
  else if tipo = "docente" then Except.ok ICostoCarne.costoDocente
  else if tipo = "administrativo" then Except.ok ICostoCarne.costoAdministrativo
  else if tipo = "externo" then Except.ok ICostoCarne.costoExterno
  else Except.error ("No hay estrategia de costo para tipo: " ++ tipo)

/-- The composition the spec calls `feeFor`: strategy lookup followed by
`calcular` on the member record. -/
def feeFor (tipo : String) (u : Usuario) : Except String Rat :=
  (get_costo_strategy tipo).map (fun s => calcular s u)

/-- Python `f"{x:.2f}"` for the non-negative exact amounts this program uses:
the amount in cents rendered with two decimal places. -/
def format2f (q : Rat) : String :=
  let cents := (q * 100).floor.toNat
  toString (cents / 100) ++ "." ++ pad2 (cents % 100)

/-- UTF-8 encoding of a single code point (1 to 4 bytes). -/
def utf8EncodeChar (c : Nat) : List Nat :=
  if c < 0x80 then [c]
  else if c < 0x800 then [0xC0 + c / 64, 0x80 + c % 64]
  else if c < 0x10000 then
    [0xE0 + c / 4096, 0x80 + (c / 64) % 64, 0x80 + c % 64]
  else
    [0xF0 + c / 262144, 0x80 + (c / 4096) % 64, 0x80 + (c / 64) % 64, 0x80 + c % 64]

/-- Python `str.encode('utf-8')`: the UTF-8 byte sequence of a string. -/
def utf8Encode (s : String) : List Nat :=
  (s.data.map (fun c => utf8EncodeChar c.toNat)).flatten

/-- A UTF-8 continuation byte: `0x80 ≤ b < 0xC0`. -/
def isCont (b : Nat) : Bool :=
  0x80 ≤ b && b < 0xC0

/-- Strict UTF-8 decoding to a list of code points, as Python
`bytes.decode('utf-8')`: rejects stray continuation bytes, overlong forms,
surrogates, out-of-range leads and truncated sequences. -/
def utf8Decode : List Nat → Option (List Nat)
  | [] => some []
  | b :: rest =>
    if b < 0x80 then
      (utf8Decode rest).map (fun cs => b :: cs)
    else if b < 0xC2 then none
    else if b < 0xE0 then
      match rest with
      | b1 :: rest2 =>
        if isCont b1 then
          (utf8Decode rest2).map (fun cs => ((b - 0xC0) * 64 + (b1 - 0x80)) :: cs)
        else none
      | [] => none
    else if b < 0xF0 then
      match rest with
      | b1 :: b2 :: rest3 =>
        let c := (b - 0xE0) * 4096 + (b1 - 0x80) * 64 + (b2 - 0x80)
        if isCont b1 && isCont b2 && decide (0x800 ≤ c) &&
            !(decide (0xD800 ≤ c) && decide (c ≤ 0xDFFF)) then
          (utf8Decode rest3).map (fun cs => c :: cs)
        else none
      | _ => none
    else if b < 0xF5 then
      match rest with
      | b1 :: b2 :: b3 :: rest4 =>
        let c := (b - 0xF0) * 262144 + (b1 - 0x80) * 4096 + (b2 - 0x80) * 64 + (b3 - 0x80)
        if isCont b1 && isCont b2 && isCont b3 && decide (0x10000 ≤ c) &&
            decide (c ≤ 0x10FFFF) then
          (utf8Decode rest4).map (fun cs => c :: cs)
        else none
      | _ => none
    else none

/-- The card text `contenido` built by `SimpleCardGenerator.generar`
(`src/ex.py` lines 87-94): six f-string lines concatenated. -/
def contenido (usuario : Usuario) (costo : Rat) : String :=
  "CARNE BIBLIOTECA UNSCH\n" ++
  "Nombre: " ++ usuario.nombre ++ "\n" ++
  "ID: " ++ usuario.id ++ "\n" ++
  "Tipo: " ++ usuario.tipo ++ "\n" ++
  "Costo: S/ " ++ format2f costo ++ "\n" ++
  "Fecha: " ++ usuario.fecha_registro.isoformat ++ "\n"

/-- `SimpleCardGenerator.generar` (`src/ex.py` lines 85-95): the card text
encoded as UTF-8 bytes. -/
def generar (usuario : Usuario) (costo : Rat) : List Nat :=
  utf8Encode (contenido usuario costo)

/-- `ConsolePrinter.imprimir` (`src/ex.py` lines 148-155), returning the
payload it displays: the decoded card text, or — when UTF-8 decoding raises
and the `except` branch runs — the binary fallback line with the byte count.
It never propagates an exception. -/
def imprimir (carcarn : List Nat) : Except String String :=
  match utf8Decode carcarn with
  | some cps => Except.ok (String.mk (cps.map Char.ofNat))
  | none => Except.ok ("[ConsolePrinter] (binario) " ++ toString carcarn.length ++ " bytes")

/-- One record of `InMemoryRepository._store`: the dict
`{'usuario': ..., 'costo': ..., 'carne': ...}`. -/
structure Registro where
  usuario : Usuario
  costo : Rat
  carne : List Nat
deriving DecidableEq, Repr

/-- `InMemoryRepository.guardar_usuario` (`src/ex.py` lines 127-129): append
the record to the ordered store. -/
def guardar_usuario (store : List Registro) (usuario : Usuario) (costo : Rat)
    (carne_bin : List Nat) : List Registro :=
  store ++ [⟨usuario, costo, carne_bin⟩]

/-- The dict returned by `GestorCarne.emitir_carne` on success:
`{'usuario_id': ..., 'costo': ...}`. -/
structure EmitResult where
  usuario_id : String
  costo : Rat
deriving DecidableEq, Repr

/-- Observable collaborator invocations performed by `emitir_carne`, in
order: the fee-strategy lookup, the card generator, the repository save, the
notifier call (plus the caught-exception branch), the printer call (plus the
caught-exception branch). -/
inductive Step where
  | feeLookup
  | render
  | save
  | notifyCall
  | notifyError
  | printCall
  | printError
deriving DecidableEq, Repr

/-- The notifier interface `INotifier.enviar`:
(destinatario, asunto, cuerpo, attachment) → may raise. -/
def Notifier : Type :=
  String → String → String → List Nat → Except String Unit

/-- The printer interface `IPrinter.imprimir`: card bytes → may raise,
returning what it displays. -/
def Printer : Type :=
  List Nat → Except String String

/-- A notifier that always succeeds (the behavior of `EmailNotifier.enviar`,
whose body only prints). -/
def okNotifier : Notifier := fun _ _ _ _ => Except.ok ()

/-- A notifier that always raises (the "configured to always fail" test
double of the spec). -/
def failNotifier : Notifier := fun _ _ _ _ => Except.error "delivery failed"

/-- A printer that always succeeds. -/
def okPrinter : Printer := fun _ => Except.ok ""

/-- A printer that always raises. -/
def failPrinter : Printer := fun _ => Except.error "print failed"

/-- `GestorCarne.emitir_carne` (`src/ex.py` lines 173-192), with the
injected notifier and printer strategies as parameters and the in-memory
repository state passed explicitly.  Returns the call's outcome, the final
repository store, and the trace of collaborator invocations.  A `ValueError`
from `validar` or from the strategy lookup propagates; exceptions from the
notifier and the printer are caught (`try`/`except`) and only logged. -/
def emitir_carne (notifier : Notifier) (printer : Printer) (usuario : Usuario)
    (store : List Registro) :
    Except String EmitResult × List Registro × List Step :=
  match validar usuario with
  | Except.error e => (Except.error e, store, [])
  | Except.ok _ =>
    match get_costo_strategy usuario.tipo with
    | Except.error e => (Except.error e, store, [Step.feeLookup])
    | Except.ok costo_strategy =>
      let costo := calcular costo_strategy usuario
      let carne_bin := generar usuario costo
      let store2 := guardar_usuario store usuario costo carne_bin
      let asunto := "Su carné de la Biblioteca Central - UNSCH"
      let cuerpo := "Estimado/a " ++ usuario.nombre ++ ",\nSu carné está listo.\nCosto: S/ " ++
        format2f costo ++ "\nID: " ++ usuario.id ++ "\n"
      let notifyTrace :=
        match notifier usuario.correo asunto cuerpo carne_bin with
        | Except.ok _ => [Step.notifyCall]
        | Except.error _ => [Step.notifyCall, Step.notifyError]
      let printTrace :=
        match printer carne_bin with
        | Except.ok _ => [Step.printCall]
        | Except.error _ => [Step.printCall, Step.printError]
      (Except.ok ⟨usuario.id, costo⟩, store2,
        [Step.feeLookup, Step.render, Step.save] ++ notifyTrace ++ printTrace)

/-- The card text split into its six lines, in the field order of
`SimpleCardGenerator.generar` (each line is newline-terminated when the card
is assembled). -/
def cardLines (u : Usuario) (c : Rat) : List String :=
  ["CARNE BIBLIOTECA UNSCH",
   "Nombre: " ++ u.nombre,
   "ID: " ++ u.id,
   "Tipo: " ++ u.tipo,
   "Costo: S/ " ++ format2f c,
   "Fecha: " ++ u.fecha_registro.isoformat]

/-- The spec's end-to-end success example: Ana Torres, a valid
`estudiante_pre` member. -/
def anaU : Usuario :=
  ⟨"u-001", "Ana Torres", "ana@uni.edu", "estudiante_pre", ⟨2026, 10, 12⟩⟩

/-- The spec's end-to-end failure example: name "X" (too short), email "bad"
(no `@`, too short), category `docente`. -/
def xU : Usuario :=
  ⟨"u-002", "X", "bad", "docente", ⟨2026, 10, 12⟩⟩

/-- A member with a valid name but an invalid email. -/
def badMailU : Usuario :=
  ⟨"u-003", "Luis Rojas", "luis", "docente", ⟨2026, 10, 12⟩⟩

/-- A member like Ana but with a different email address (used to show the
card does not depend on the email field). -/
def anaAltMailU : Usuario :=
  ⟨"u-001", "Ana Torres", "ana.torres@uni.edu", "estudiante_pre", ⟨2026, 10, 12⟩⟩

lemma validar_ok_mem {u : Usuario} (h : validar u = Except.ok ()) :
    u.tipo ∈ tipos := by
  unfold validar at h
  split_ifs at h with h1 h2 h3
  · simpa using h3

lemma get_costo_strategy_of_mem {tipo : String} (h : tipo ∈ tipos) :
    ∃ s, get_costo_strategy tipo = Except.ok s := by
  simp only [tipos, List.mem_cons, List.not_mem_nil, or_false] at h
  rcases h with rfl | rfl | rfl | rfl | rfl <;> exact ⟨_, rfl⟩

lemma get_costo_strategy_not_mem {tipo : String} (h : tipo ∉ tipos) :
    get_costo_strategy tipo =
      Except.error ("No hay estrategia de costo para tipo: " ++ tipo) := by
  simp only [tipos, List.mem_cons, List.not_mem_nil, or_false, not_or] at h
  obtain ⟨h1, h2, h3, h4, h5⟩ := h
  simp [get_costo_strategy, h1, h2, h3, h4, h5]

lemma imprimir_isOk (b : List Nat) : ∃ s, imprimir b = Except.ok s := by
  unfold imprimir
  cases utf8Decode b <;> exact ⟨_, rfl⟩

/-- C1: when validation fails, `emitir_carne` surfaces the validation error
to the caller, the repository state is unchanged, and the trace is empty —
the fee-strategy lookup, card generator, repository, notifier and printer
are never invoked. -/
theorem emitir_carne_aborts_on_invalid (n : Notifier) (p : Printer)
    (u : Usuario) (store : List Registro) (e : String)
    (h : validar u = Except.error e) :
    emitir_carne n p u store = (Except.error e, store, []) := by
  simp [emitir_carne, h]

/-- Witness for C1: the member with name "Luis Rojas" and email "luis" fails
validation on the email, and `emitir_carne` returns that error with the
store untouched and no collaborator invoked. -/
theorem emitir_carne_aborts_on_invalid_witness :
    validar badMailU = Except.error "Correo inválido" ∧
    emitir_carne failNotifier failPrinter badMailU [] =
      (Except.error "Correo inválido", [], []) :=
  ⟨by rfl,
   emitir_carne_aborts_on_invalid failNotifier failPrinter badMailU []
     "Correo inválido" (by rfl)⟩

/-- C3: `feeFor` (strategy lookup followed by `calcular`) returns exactly
the constants 10.0, 12.0, 5.0, 6.0, 20.0 on the five recognized categories
(the spec's student-undergrad, student-grad, faculty, staff, external), and
fails with the unknown-category error on every other input; it is a pure
function of the category alone. -/
theorem feeFor_total_on_categories :
    (∀ u : Usuario,
      feeFor "estudiante_pre" u = Except.ok 10 ∧
      feeFor "estudiante_pos" u = Except.ok 12 ∧
      feeFor "docente" u = Except.ok 5 ∧
      feeFor "administrativo" u = Except.ok 6 ∧
      feeFor "externo" u = Except.ok 20) ∧
    (∀ (tipo : String) (u : Usuario), tipo ∉ tipos →
      feeFor tipo u =
        Except.error ("No hay estrategia de costo para tipo: " ++ tipo)) := by
  constructor
  · intro u
    exact ⟨rfl, rfl, rfl, rfl, rfl⟩
  · intro tipo u h
    simp [feeFor, Except.map, get_costo_strategy_not_mem h]

/-- Witness for C3: the category outside the mapping is exercised at the
concrete input "visitante". -/
theorem feeFor_total_on_categories_witness :
    feeFor "estudiante_pre" anaU = Except.ok 10 ∧
    feeFor "visitante" anaU =
      Except.error ("No hay estrategia de costo para tipo: " ++ "visitante") :=
  ⟨(feeFor_total_on_categories.1 anaU).1,
   feeFor_total_on_categories.2 "visitante" anaU (by decide)⟩

/-- C4: `validar` raises `InvalidMember` (a `ValueError`) exactly when the
name is empty or shorter than 2 characters after stripping, or the email
lacks an `@` or is shorter than 5 characters after stripping, or the
category is not one of the five recognized values; otherwise it returns
normally.  (The embedding is a pure function: no side effects.) -/
theorem validar_error_iff (u : Usuario) :
    validar u ≠ Except.ok () ↔
      ((u.nombre = "" ∨ (strip u.nombre).length < 2) ∨
       (¬ pyContains u.correo '@' ∨ (strip u.correo).length < 5) ∨
       u.tipo ∉ tipos) := by
  unfold validar
  split_ifs with h1 h2 h3 <;> simp_all

/-- C5: after `validar` returns normally the fee-strategy lookup cannot
fail, because the validator's accepted category set coincides exactly with
the factory's mapping keys. -/
theorem strategy_total_after_validation :
    (∀ u : Usuario, validar u = Except.ok () →
      ∃ s, get_costo_strategy u.tipo = Except.ok s) ∧
    (∀ tipo : String, tipo ∈ tipos ↔ ∃ s, get_costo_strategy tipo = Except.ok s) := by
  constructor
  · intro u h
    exact get_costo_strategy_of_mem (validar_ok_mem h)
  · intro tipo
    constructor
    · exact get_costo_strategy_of_mem
    · rintro ⟨s, hs⟩
      by_contra hmem
      rw [get_costo_strategy_not_mem hmem] at hs
      cases hs

/-- Witness for C5: Ana Torres passes validation and the strategy lookup on
her category succeeds. -/
theorem strategy_total_after_validation_witness :
    validar anaU = Except.ok () ∧
    ∃ s, get_costo_strategy anaU.tipo = Except.ok s :=
  ⟨by rfl, strategy_total_after_validation.1 anaU (by rfl)⟩

/-- C2: for a member that passes validation, `emitir_carne` completes under
any notifier/printer behavior: failures of either are caught, the printer is
still invoked after a notify failure, and the returned result and the
persisted store are exactly those of a failure-free run. -/
theorem emitir_carne_notify_print_failures_nonfatal (n : Notifier) (p : Printer)
    (u : Usuario) (store : List Registro) (h : validar u = Except.ok ()) :
    (emitir_carne n p u store).1 = (emitir_carne okNotifier okPrinter u store).1 ∧
    (emitir_carne n p u store).2.1 = (emitir_carne okNotifier okPrinter u store).2.1 ∧
    (∃ r, (emitir_carne n p u store).1 = Except.ok r) ∧
    Step.printCall ∈ (emitir_carne n p u store).2.2 := by
  obtain ⟨s, hs⟩ := get_costo_strategy_of_mem (validar_ok_mem h)
  refine ⟨?_, ?_, ?_, ?_⟩
  · simp [emitir_carne, h, hs]
  · simp [emitir_carne, h, hs]
  · refine ⟨⟨u.id, calcular s u⟩, ?_⟩
    simp [emitir_carne, h, hs]
  · simp only [emitir_carne, h, hs]
    cases n u.correo _ _ _ <;> cases p _ <;> simp

/-- Witness for C2: with a notifier and a printer that both always raise,
issuing Ana Torres's card still returns the failure-free result, persists
the same record, and the printer is invoked. -/
theorem emitir_carne_notify_print_failures_nonfatal_witness :
    validar anaU = Except.ok () ∧
    ((emitir_carne failNotifier failPrinter anaU []).1 =
        (emitir_carne okNotifier okPrinter anaU []).1 ∧
      (emitir_carne failNotifier failPrinter anaU []).2.1 =
        (emitir_carne okNotifier okPrinter anaU []).2.1 ∧
      (∃ r, (emitir_carne failNotifier failPrinter anaU []).1 = Except.ok r) ∧
      Step.printCall ∈ (emitir_carne failNotifier failPrinter anaU []).2.2) :=
  ⟨by rfl,
   emitir_carne_notify_print_failures_nonfatal failNotifier failPrinter anaU []
     (by rfl)⟩

/-- C6: for a member that passes validation, `emitir_carne` returns exactly
the member's id paired with the fee of its category's strategy, and appends
exactly one record (member, fee, card bytes) to the repository store. -/
theorem emitir_carne_success (n : Notifier) (p : Printer) (u : Usuario)
    (store : List Registro) (s : ICostoCarne)
    (h : validar u = Except.ok ()) (hs : get_costo_strategy u.tipo = Except.ok s) :
    (emitir_carne n p u store).1 = Except.ok ⟨u.id, calcular s u⟩ ∧
    (emitir_carne n p u store).2.1 =
      store ++ [⟨u, calcular s u, generar u (calcular s u)⟩] := by
  refine ⟨?_, ?_⟩ <;> simp [emitir_carne, h, hs, guardar_usuario]

/-- Witness for C6: Ana Torres (valid, category `estudiante_pre`) gets
result `{usuario_id := "u-001", costo := 10}` and exactly her record is
appended to the empty store. -/
theorem emitir_carne_success_witness :
    (emitir_carne okNotifier okPrinter anaU []).1 = Except.ok ⟨"u-001", 10⟩ ∧
    (emitir_carne okNotifier okPrinter anaU []).2.1 =
      [⟨anaU, 10, generar anaU 10⟩] :=
  emitir_carne_success okNotifier okPrinter anaU [] ICostoCarne.costoEstudiantePre
    (by rfl) (by rfl)

/-- C7: rendering is deterministic and depends only on the fields the card
shows: two members agreeing on name, id, category and registration date
(the email may differ) render to byte-identical cards for the same fee. -/
theorem generar_deterministic (u1 u2 : Usuario) (c : Rat)
    (hn : u1.nombre = u2.nombre) (hid : u1.id = u2.id) (ht : u1.tipo = u2.tipo)
    (hf : u1.fecha_registro = u2.fecha_registro) :
    generar u1 c = generar u2 c := by
  simp [generar, contenido, hn, hid, ht, hf]

/-- Witness for C7: Ana's card is byte-identical when rendered from her
record and from the same record with a different email address. -/
theorem generar_deterministic_witness :
    generar anaU 10 = generar anaAltMailU 10 :=
  generar_deterministic anaU anaAltMailU 10 rfl rfl rfl rfl

/-- C8: the validator checks the name first, then the email, then the
category: a bad name yields the name error (and `emitir_carne` persists
nothing), a good name with a bad email yields the email error, and only with
both good is the category checked. -/
theorem validar_check_order (u : Usuario) :
    ((u.nombre = "" ∨ (strip u.nombre).length < 2) →
      validar u = Except.error "Nombre inválido" ∧
      ∀ (n : Notifier) (p : Printer) (store : List Registro),
        emitir_carne n p u store = (Except.error "Nombre inválido", store, [])) ∧
    (¬(u.nombre = "" ∨ (strip u.nombre).length < 2) →
      (¬ pyContains u.correo '@' ∨ (strip u.correo).length < 5) →
      validar u = Except.error "Correo inválido") ∧
    (¬(u.nombre = "" ∨ (strip u.nombre).length < 2) →
      ¬(¬ pyContains u.correo '@' ∨ (strip u.correo).length < 5) →
      u.tipo ∉ tipos →
      validar u = Except.error ("Tipo de usuario desconocido: " ++ u.tipo)) := by
  refine ⟨fun h1 => ?_, fun h1 h2 => ?_, fun h1 h2 h3 => ?_⟩
  · have hv : validar u = Except.error "Nombre inválido" := by
      simp [validar, h1]
    exact ⟨hv, fun n p store => by simp [emitir_carne, hv]⟩
  · unfold validar
    rw [if_neg h1, if_pos h2]
  · unfold validar
    rw [if_neg h1, if_neg h2, if_pos h3]

/-- Witness for C8: the spec's member {name "X", email "bad", category
`docente`} has both name and email invalid; validation reports the name
error and nothing is persisted. -/
theorem validar_check_order_witness :
    (xU.nombre = "" ∨ (strip xU.nombre).length < 2) ∧
    validar xU = Except.error "Nombre inválido" ∧
    emitir_carne okNotifier okPrinter xU [] =
      (Except.error "Nombre inválido", [], []) :=
  ⟨Or.inr (by decide),
   ((validar_check_order xU).1 (Or.inr (by decide))).1,
   ((validar_check_order xU).1 (Or.inr (by decide))).2 okNotifier okPrinter []⟩

/-- C9: for every member and fee, the rendered card is the UTF-8 encoding of
the six newline-terminated lines in the fixed field order: institution label,
name, id, category, fee with two decimals after the currency symbol, and the
ISO-8601 registration date. -/
theorem generar_line_format (u : Usuario) (c : Rat) :
    generar u c =
      utf8Encode (String.join ((cardLines u c).map (fun l => l ++ "\n"))) := by
  apply congrArg utf8Encode
  apply String.ext
  simp [contenido, cardLines, String.join, String.data_append, List.append_assoc]

/-- C10: the console printer's `imprimir` returns normally on every byte
input (a payload that fails UTF-8 decoding is reported by its byte length
instead), so when it is the printer of `emitir_carne` the caught-print-error
branch is never reached. -/
theorem imprimir_never_fails :
    (∀ b : List Nat, ∃ s, imprimir b = Except.ok s) ∧
    (∀ (n : Notifier) (u : Usuario) (store : List Registro),
      Step.printError ∉ (emitir_carne n imprimir u store).2.2) := by
  refine ⟨imprimir_isOk, ?_⟩
  intro n u store
  cases hv : validar u with
  | error e => simp [emitir_carne, hv]
  | ok _ =>
    cases hs : get_costo_strategy u.tipo with
    | error e => simp [emitir_carne, hv, hs]
    | ok s =>
      obtain ⟨t, ht⟩ := imprimir_isOk (generar u (calcular s u))
      simp only [emitir_carne, hv, hs, ht]
      cases n u.correo _ _ _ <;> simp

/-- Witness for C4: the member with name "X" (too short after stripping)
indeed fails validation. -/
theorem validar_error_iff_witness :
    validar xU ≠ Except.ok () :=
  (validar_error_iff xU).mpr (Or.inl (Or.inr (by decide)))

/-- Witness for C9: Ana Torres's rendered card at fee 10 is exactly the
UTF-8 encoding of its six newline-terminated lines. -/
theorem generar_line_format_witness :
    generar anaU 10 =
      utf8Encode (String.join ((cardLines anaU 10).map (fun l => l ++ "\n"))) :=
  generar_line_format anaU 10

/-- Witness for C10: issuing Ana Torres's card with the console printer
leaves no print-error event in the trace. -/
theorem imprimir_never_fails_witness :
    Step.printError ∉ (emitir_carne okNotifier imprimir anaU []).2.2 :=
  imprimir_never_fails.2 okNotifier anaU []
